import Mathlib

/-!
Formal model of the fetch-orchestration core of `src/services/stock_service.py`:
the sliding-window rate limiter (`RateLimiter`), the TTL cache and status
dispatch of `_fmp_get`, the response validator (`validate_response_data`), the
per-ticker mapping of `fetch_stock_data`, and the `BatchProcessor` retry loop
with its statistics.  Wall-clock times are modelled as `Int` (only order and
difference matter), Python float division in `get_statistics` as `ℚ`, JSON
documents as lists of records of key/value string pairs, and Python dicts as
association lists whose most recent binding shadows older ones.
-/

namespace StockService

/-- Module-level constant `WINDOW_SIZE = 60` (seconds). -/
def WINDOW_SIZE : Int := 60

/-- Module-level constant `MAX_REQUESTS_PER_WINDOW = 30`. -/
def MAX_REQUESTS_PER_WINDOW : Nat := 30

/-- Module-level constant `CACHE_EXPIRY = 24 * 60 * 60` (seconds). -/
def CACHE_EXPIRY : Int := 24 * 60 * 60

/-- Module-level constant `MAX_QUEUE_SIZE = 1000`. -/
def MAX_QUEUE_SIZE : Nat := 1000

/-- State of the `RateLimiter` class: the configured cap `max_requests`, the
window length `window_size`, and the recorded admission timestamps `requests`
in insertion order. -/
structure RateLimiter where
  max_requests : Nat
  window_size : Int
  requests : List Int
deriving DecidableEq

/-- One call of `RateLimiter.wait_if_needed` at wall-clock time `now`: prune
timestamps `t` with `now - t >= window_size`, then, when the cap is reached,
sleep (which does not change the recorded list) and drop the oldest entry
(`self.requests = self.requests[1:]`), and finally append `now`. -/
def RateLimiter.wait_if_needed (rl : RateLimiter) (now : Int) : RateLimiter :=
  let pruned := rl.requests.filter (fun t => decide (now - t < rl.window_size))
  if rl.max_requests ≤ pruned.length then
    { rl with requests := pruned.drop 1 ++ [now] }
  else
    { rl with requests := pruned ++ [now] }

/-- Replay a sequence of `wait_if_needed` calls from a starting state. -/
def runLimiter (rl : RateLimiter) (times : List Int) : RateLimiter :=
  times.foldl RateLimiter.wait_if_needed rl

/-- Number of recorded timestamps lying in the trailing interval
`(t - window, t]`. -/
def countInWindow (requests : List Int) (t window : Int) : Nat :=
  (requests.filter (fun r => decide (0 ≤ t - r ∧ t - r < window))).length

theorem wait_if_needed_max (rl : RateLimiter) (now : Int) :
    (rl.wait_if_needed now).max_requests = rl.max_requests := by
  dsimp only [RateLimiter.wait_if_needed]
  split <;> rfl

theorem wait_if_needed_window (rl : RateLimiter) (now : Int) :
    (rl.wait_if_needed now).window_size = rl.window_size := by
  dsimp only [RateLimiter.wait_if_needed]
  split <;> rfl

theorem wait_if_needed_length (rl : RateLimiter) (now : Int)
    (hm : 1 ≤ rl.max_requests) (hlen : rl.requests.length ≤ rl.max_requests) :
    (rl.wait_if_needed now).requests.length ≤ rl.max_requests := by
  have hfil : (rl.requests.filter (fun t => decide (now - t < rl.window_size))).length
      ≤ rl.requests.length := List.length_filter_le _ _
  dsimp only [RateLimiter.wait_if_needed]
  split
  · rename_i h
    simp only [List.length_append, List.length_drop, List.length_cons, List.length_nil]
    omega
  · rename_i h
    simp only [List.length_append, List.length_cons, List.length_nil]
    omega

theorem runLimiter_max (times : List Int) (rl : RateLimiter) :
    (runLimiter rl times).max_requests = rl.max_requests := by
  induction times generalizing rl with
  | nil => rfl
  | cons a l ih =>
    show (runLimiter (rl.wait_if_needed a) l).max_requests = rl.max_requests
    rw [ih, wait_if_needed_max]

theorem runLimiter_length (times : List Int) (rl : RateLimiter)
    (hm : 1 ≤ rl.max_requests) (hlen : rl.requests.length ≤ rl.max_requests) :
    (runLimiter rl times).requests.length ≤ rl.max_requests := by
  induction times generalizing rl with
  | nil => exact hlen
  | cons a l ih =>
    show (runLimiter (rl.wait_if_needed a) l).requests.length ≤ rl.max_requests
    have h1 : (rl.wait_if_needed a).max_requests = rl.max_requests := wait_if_needed_max rl a
    have h2 := ih (rl.wait_if_needed a)
      (by rw [h1]; exact hm)
      (by rw [h1]; exact wait_if_needed_length rl a hm hlen)
    rwa [h1] at h2

theorem countInWindow_le_length (requests : List Int) (t window : Int) :
    countInWindow requests t window ≤ requests.length :=
  List.length_filter_le _ _

/-- Claim C1: for every sequence of calls to `RateLimiter.wait_if_needed`, at
every instant the number of recorded admission timestamps lying within the
trailing `windowSize` interval is at most `maxCount`, and timestamps older
than `windowSize` are pruned on each admission check (every timestamp still
recorded after a check at time `now` is within the window of `now`). -/
theorem rate_limiter_window_invariant (m : Nat) (w : Int) (hm : 1 ≤ m) (hw : 0 < w) :
    (∀ (times : List Int) (t : Int),
        countInWindow (runLimiter ⟨m, w, []⟩ times).requests t w ≤ m) ∧
    (∀ (reqs : List Int) (now r : Int),
        r ∈ (RateLimiter.wait_if_needed ⟨m, w, reqs⟩ now).requests → now - r < w) := by
  constructor
  · intro times t
    have hlen := runLimiter_length times ⟨m, w, []⟩ hm (by simp)
    exact le_trans (countInWindow_le_length _ t w) hlen
  · intro reqs now r hr
    dsimp only [RateLimiter.wait_if_needed] at hr
    split at hr <;>
    · simp only [List.mem_append, List.mem_singleton] at hr
      rcases hr with hr | hr
      · have hmem : r ∈ reqs.filter (fun t => decide (now - t < w)) := by
          first
          | exact hr
          | exact List.mem_of_mem_drop hr
        have := List.of_mem_filter hmem
        simpa using this
      · subst hr; simpa using hw

/-- Witness for claim C1 at a concrete run: cap 2, window 60, four admissions
at times 0, 1, 2, 3; the count in the trailing window at time 3 is at most 2,
and a recorded timestamp after a check at time 3 is within the window. -/
theorem rate_limiter_window_invariant_check :
    countInWindow (runLimiter ⟨2, 60, []⟩ [0, 1, 2, 3]).requests 3 60 ≤ 2 ∧
    (3 : Int) - 0 < 60 := by
  constructor
  · exact (rate_limiter_window_invariant 2 60 (by decide) (by decide)).1 [0, 1, 2, 3] 3
  · exact (rate_limiter_window_invariant 2 60 (by decide) (by decide)).2 [0] 3 0 (by decide)

/-- A JSON object, modelled as its list of key/value pairs (values as opaque
strings). -/
abbrev JsonRec := List (String × String)

/-- A decoded FMP JSON document: either a list of records or a single object,
the two shapes `validate_response_data` distinguishes with `isinstance`. -/
inductive FmpData where
  | arr (records : List JsonRec)
  | obj (fields : JsonRec)
deriving DecidableEq

/-- Python truthiness of a decoded JSON document (`if not data`): an empty
list and an empty object are falsy. -/
def FmpData.truthy : FmpData → Bool
  | .arr rs => !rs.isEmpty
  | .obj fs => !fs.isEmpty

/-- The test `isinstance(data, list) and len(data) > 0` (written in the source
as the negation `not isinstance(data, list) or len(data) == 0`). -/
def FmpData.isNonEmptyList : FmpData → Bool
  | .arr rs => !rs.isEmpty
  | .obj _ => false

/-- The first record `data[0]` of a non-empty list document; only consulted
after `isNonEmptyList` holds, so the default is never observable. -/
def FmpData.first : FmpData → JsonRec
  | .arr (r :: _) => r
  | _ => []

/-- The Python membership test `field in data[0]` on a JSON object. -/
def hasKey (r : JsonRec) (f : String) : Bool :=
  r.any (fun p => p.1 = f)

/-- The check `any(field in data[0] for field in required_fields)`. -/
def anyKey (r : JsonRec) (fs : List String) : Bool :=
  fs.any (hasKey r)

/-- The check `all(field in data[0] for field in required_fields)`. -/
def allKeys (r : JsonRec) (fs : List String) : Bool :=
  fs.all (hasKey r)

/-- The base endpoint name `endpoint.split('/')[0]`: the characters of the
endpoint before its first slash (the whole endpoint when it has no slash). -/
def baseEndpoint (endpoint : String) : String :=
  String.mk (endpoint.toList.takeWhile (fun c => decide (c ≠ '/')))

/-- Model of `validate_response_data(data, endpoint)`: empty documents are
rejected; the `profile` kind requires a non-empty list whose first record has
all of its required fields; the three statement kinds require only a non-empty
list; the remaining known kinds require a non-empty list whose first record
has at least one of the kind-specific required fields; unknown kinds pass. -/
def validate_response_data (data : FmpData) (endpoint : String) : Bool :=
  if !data.truthy then false
  else
    let base := baseEndpoint endpoint
    if base = "profile" then
      if !data.isNonEmptyList then false
      else allKeys data.first ["symbol", "price", "mktCap"]
    else if base = "balance-sheet-statement" || base = "income-statement"
        || base = "cash-flow-statement" then
      data.isNonEmptyList
    else if base = "key-metrics-ttm" then
      if !data.isNonEmptyList then false
      else anyKey data.first ["peRatio", "pbRatio", "roe"]
    else if base = "ratios-ttm" then
      if !data.isNonEmptyList then false
      else anyKey data.first ["priceEarningsRatio", "priceToBookRatio", "returnOnEquity"]
    else if base = "market-sentiment" then
      if !data.isNonEmptyList then false
      else anyKey data.first ["rating", "targetPrice", "recommendation"]
    else if base = "financial-growth-ttm" then
      if !data.isNonEmptyList then false
      else anyKey data.first ["revenueGrowth", "netIncomeGrowth", "epsgrowth"]
    else if base = "enterprise-values" then
      if !data.isNonEmptyList then false
      else anyKey data.first ["enterpriseValue", "enterpriseValueMultiple"]
    else true

/-- Claim C4 counterexample: a profile document of the expected shape whose
first record contains one of the required fields (`symbol`) but not all of
them is rejected by the validator, because the `profile` branch uses an
all-of check, not the any-of policy the claim states for every kind. -/
theorem validator_anyof_cex :
    anyKey [("symbol", "AAPL")] ["symbol", "price", "mktCap"] = true ∧
    FmpData.isNonEmptyList (.arr [[("symbol", "AAPL")]]) = true ∧
    validate_response_data (.arr [[("symbol", "AAPL")]]) "profile/AAPL" = false := by
  decide

/-- Claim C4 (amended): the any-of policy holds for the kinds
`key-metrics-ttm`, `ratios-ttm`, `market-sentiment`, `financial-growth-ttm`
and `enterprise-values`, and an empty document always validates as false; but
the `profile` kind requires all of its required fields, and the statement
kinds accept any non-empty list with no field requirement. -/
theorem validator_policy :
    (∀ endpoint : String,
        validate_response_data (.arr []) endpoint = false ∧
        validate_response_data (.obj []) endpoint = false) ∧
    (∀ (r : JsonRec) (rest : List JsonRec),
        validate_response_data (.arr (r :: rest)) "key-metrics-ttm/T"
          = anyKey r ["peRatio", "pbRatio", "roe"] ∧
        validate_response_data (.arr (r :: rest)) "ratios-ttm/T"
          = anyKey r ["priceEarningsRatio", "priceToBookRatio", "returnOnEquity"] ∧
        validate_response_data (.arr (r :: rest)) "market-sentiment/T"
          = anyKey r ["rating", "targetPrice", "recommendation"] ∧
        validate_response_data (.arr (r :: rest)) "financial-growth-ttm/T"
          = anyKey r ["revenueGrowth", "netIncomeGrowth", "epsgrowth"] ∧
        validate_response_data (.arr (r :: rest)) "enterprise-values/T"
          = anyKey r ["enterpriseValue", "enterpriseValueMultiple"] ∧
        validate_response_data (.arr (r :: rest)) "profile/T"
          = allKeys r ["symbol", "price", "mktCap"] ∧
        validate_response_data (.arr (r :: rest)) "balance-sheet-statement/T" = true) := by
  constructor
  · intro endpoint
    constructor <;> rfl
  · intro r rest
    refine ⟨rfl, rfl, rfl, rfl, rfl, rfl, rfl⟩

/-- One entry of `stock_cache`: the cached document and the wall-clock time of
the write. -/
structure CacheEntry where
  data : FmpData
  timestamp : Int
deriving DecidableEq

/-- The in-memory `stock_cache` dict, as an association list whose first
binding for a key is the current one. -/
abbrev Cache := List (String × CacheEntry)

/-- Dictionary lookup `stock_cache[key]` (with `key in stock_cache` as
`isSome`). -/
def cacheLookup (c : Cache) (k : String) : Option CacheEntry :=
  (c.find? (fun p => p.1 = k)).map (fun p => p.2)

/-- Dictionary assignment `stock_cache[key] = entry`. -/
def cacheInsert (c : Cache) (k : String) (e : CacheEntry) : Cache :=
  (k, e) :: c.filter (fun p => decide (p.1 ≠ k))

/-- The cache read path of `_fmp_get` (lines 204-209): a hit with a fresh
entry (`time.time() - timestamp < CACHE_EXPIRY`) returns the stored document;
a missing key or an entry at or past expiry behaves as a miss. -/
def cache_get (c : Cache) (k : String) (now : Int) : Option FmpData :=
  match cacheLookup c k with
  | some e => if now - e.timestamp < CACHE_EXPIRY then some e.data else none
  | none => none

/-- The cache write path of `_fmp_get` (lines 238-243): store the document
with the current time. -/
def cache_put (c : Cache) (k : String) (d : FmpData) (now : Int) : Cache :=
  cacheInsert c k ⟨d, now⟩

theorem cacheLookup_cacheInsert_self (c : Cache) (k : String) (e : CacheEntry) :
    cacheLookup (cacheInsert c k e) k = some e := by
  simp [cacheLookup, cacheInsert, List.find?]

/-- The exceptions `_fmp_get` can raise internally: the `ValueError` for a
401, the `HTTPError` for other non-200 statuses, a `RequestException` from
the transport, and a `JSONDecodeError` from body parsing. -/
inductive PyExn where
  | valueError (msg : String)
  | httpError
  | requestException
  | jsonDecodeError
deriving DecidableEq

/-- Outcome of the network call `session.get`: an HTTP status with a decoded
body, a transport error raised by the session, or a body that fails JSON
decoding. -/
inductive NetResult where
  | status (code : Nat) (body : FmpData)
  | transportError
  | jsonError
deriving DecidableEq

/-- The try-block body of `_fmp_get` after a cache miss: `handle_rate_limit`,
the GET, the status dispatch (401 raises `ValueError`, 429 sleeps and returns
None, 404 returns None, other non-200 raises `HTTPError`), JSON decoding,
validation (invalid data returns None), and the write-through cache update on
success.  The `Except` layer records which exception the body raises. -/
def fmp_get_try (c : Cache) (now : Int) (endpoint key : String) (net : NetResult) :
    Except PyExn (Option FmpData) × Cache :=
  match net with
  | .transportError => (Except.error PyExn.requestException, c)
  | .jsonError => (Except.error PyExn.jsonDecodeError, c)
  | .status code body =>
    if code = 401 then (Except.error (PyExn.valueError "Invalid FMP API key"), c)
    else if code = 429 then (Except.ok none, c)
    else if code = 404 then (Except.ok none, c)
    else if code ≠ 200 then (Except.error PyExn.httpError, c)
    else if !validate_response_data body endpoint then (Except.ok none, c)
    else (Except.ok (some body), cache_put c key body now)

/-- Model of `_fmp_get(endpoint, params)` at wall-clock time `now` with
network outcome `net`: the cache is consulted first and a fresh hit returns
immediately; on a miss the try body runs, and each of the except clauses
(`RequestException`, `JSONDecodeError`, and the catch-all `except Exception`)
turns any raised exception into a `None` return.  The result is the returned
value, the updated cache, and the number of `handle_rate_limit` admissions
performed (0 on a cache hit, 1 otherwise). -/
def fmp_get (c : Cache) (now : Int) (endpoint params : String) (net : NetResult) :
    Option FmpData × Cache × Nat :=
  let key := endpoint ++ "|" ++ params
  match cache_get c key now with
  | some d => (some d, c, 0)
  | none =>
    match fmp_get_try c now endpoint key net with
    | (Except.ok r, c2) => (r, c2, 1)
    | (Except.error _, c2) => (none, c2, 1)

/-- Claim C8: a cache read returns the stored value only when
`now - storedAt < CACHE_EXPIRY` holds strictly; a read of an entry at or past
expiry behaves as a miss, and even when the ensuing refetch fails the stale
value is never returned; and a `put` followed by a `get` before expiry
returns the stored value. -/
theorem cache_expiry_semantics :
    (∀ (c : Cache) (k : String) (now : Int) (d : FmpData),
        cache_get c k now = some d →
        ∃ e, cacheLookup c k = some e ∧ e.data = d ∧ now - e.timestamp < CACHE_EXPIRY) ∧
    (∀ (c : Cache) (k : String) (now : Int) (e : CacheEntry),
        cacheLookup c k = some e → CACHE_EXPIRY ≤ now - e.timestamp →
        cache_get c k now = none ∧
        (∀ endpoint params : String, endpoint ++ "|" ++ params = k →
            fmp_get c now endpoint params NetResult.transportError = (none, c, 1))) ∧
    (∀ (c : Cache) (k : String) (d : FmpData) (tput tget : Int),
        tget - tput < CACHE_EXPIRY →
        cache_get (cache_put c k d tput) k tget = some d) := by
  refine ⟨?_, ?_, ?_⟩
  · intro c k now d hget
    cases hlook : cacheLookup c k with
    | none => simp [cache_get, hlook] at hget
    | some e =>
      by_cases hfresh : now - e.timestamp < CACHE_EXPIRY
      · refine ⟨e, rfl, ?_, hfresh⟩
        simp [cache_get, hlook, hfresh] at hget
        exact hget
      · simp [cache_get, hlook, hfresh] at hget
  · intro c k now e hlook hexp
    have hfresh : ¬(now - e.timestamp < CACHE_EXPIRY) := by omega
    have hmiss : cache_get c k now = none := by
      simp [cache_get, hlook, hfresh]
    refine ⟨hmiss, ?_⟩
    intro endpoint params hkey
    simp [fmp_get, hkey, hmiss, fmp_get_try]
  · intro c k d tput tget hfresh
    simp [cache_get, cache_put, cacheLookup_cacheInsert_self, hfresh]

/-- Witness for claim C8: a concrete put at time 0 is readable at time 10 and
treated as a miss exactly at the expiry boundary. -/
theorem cache_expiry_semantics_check :
    cache_get (cache_put [] "k" (FmpData.obj []) 0) "k" 10 = some (FmpData.obj []) ∧
    cache_get (cache_put [] "k" (FmpData.obj []) 0) "k" CACHE_EXPIRY = none := by
  constructor
  · exact cache_expiry_semantics.2.2 [] "k" (FmpData.obj []) 0 10 (by decide)
  · exact (cache_expiry_semantics.2.1 (cache_put [] "k" (FmpData.obj []) 0) "k"
      CACHE_EXPIRY ⟨FmpData.obj [], 0⟩ (by decide) (by decide)).1

/-- The mutable state of a `BatchProcessor`: the bounded retry queue (FIFO,
front at the head), and the `processed_tickers` and `failed_tickers` sets,
modelled as duplicate-free lists in insertion order. -/
structure BatchState where
  retry_queue : List String
  processed_tickers : List String
  failed_tickers : List String
deriving DecidableEq

/-- Python `set.add` on a set modelled as a duplicate-free list. -/
def insertSet (s : List String) (x : String) : List String :=
  if x ∈ s then s else s ++ [x]

/-- Result of `queue.Queue.put`: the element was appended, or the call blocked
the calling thread. -/
inductive PutResult where
  | enqueued (q : List String)
  | blocked
deriving DecidableEq

/-- Semantics of `queue.Queue(maxsize=maxsize).put(x)` with the default
`block=True`: append when a slot is free, otherwise block until one becomes
free (which, inside `process_ticker`, holds the processor lock and can wait
indefinitely, since the queue is only drained between rounds). -/
def queue_put (q : List String) (maxsize : Nat) (x : String) : PutResult :=
  if q.length < maxsize then PutResult.enqueued (q ++ [x]) else PutResult.blocked

/-- Model of `BatchProcessor.process_ticker`, generic in the record type: one
unconditional `rate_limiter.wait_if_needed()` admission at time `now`, then
the fetch outcome `data` updates the shared state under the lock: a record
adds the ticker to `processed_tickers` and returns the singleton mapping; a
`None` adds it to `failed_tickers` and enqueues it for retry.  The result is
`none` when the retry-queue put blocks forever on a full queue. -/
def process_ticker {α : Type} (rl : RateLimiter) (now : Int) (st : BatchState)
    (ticker : String) (data : Option α) :
    Option (RateLimiter × Option (String × α) × BatchState) :=
  let rl2 := rl.wait_if_needed now
  match data with
  | some d =>
    some (rl2, some (ticker, d),
      { st with processed_tickers := insertSet st.processed_tickers ticker })
  | none =>
    match queue_put st.retry_queue MAX_QUEUE_SIZE ticker with
    | PutResult.enqueued q =>
      some (rl2, none,
        { st with failed_tickers := insertSet st.failed_tickers ticker, retry_queue := q })
    | PutResult.blocked => none

/-- The `results` dict accumulated by `process_batch`, as an association list
whose first binding for a key is the current one. -/
abbrev ResultsDict (α : Type) := List (String × α)

/-- The dict update performed by `results.update(result)` for a singleton
`result`. -/
def dictInsert {α : Type} (d : ResultsDict α) (k : String) (v : α) : ResultsDict α :=
  (k, v) :: d.filter (fun p => decide (p.1 ≠ k))

/-- Dict lookup `results[k]`. -/
def dictLookup {α : Type} (d : ResultsDict α) (k : String) : Option α :=
  (d.find? (fun p => p.1 = k)).map (fun p => p.2)

/-- One pass of `process_batch` over the current ticker list: each ticker goes
through `process_ticker` and every returned singleton mapping is merged into
`results`.  The pool completes all submitted futures; outcomes are folded in
submission order (completion order does not affect the final sets or dict for
a per-ticker oracle).  `oracle` gives the fetch outcome per ticker. -/
def runRound {α : Type} (oracle : String → Option α) (now : Int) :
    RateLimiter → BatchState → List String → ResultsDict α →
    Option (RateLimiter × BatchState × ResultsDict α)
  | rl, st, [], results => some (rl, st, results)
  | rl, st, t :: rest, results =>
    match process_ticker rl now st t (oracle t) with
    | none => none
    | some (rl2, r, st2) =>
      match r with
      | some (k, v) => runRound oracle now rl2 st2 rest (dictInsert results k v)
      | none => runRound oracle now rl2 st2 rest results

/-- The retry loop of `process_batch`, with `remaining = max_retries -
retry_count` so that the loop condition `retry_count < max_retries` becomes
`0 < remaining`: run a round, drain the retry queue into the next round's
ticker list, stop when it is empty, otherwise sleep the cooldown, increment
`retry_count` (decrement `remaining`) and go again.  `round` indexes the
oracle so a retry may answer differently from the first attempt. -/
def process_batch_go {α : Type} (oracle : Nat → String → Option α) (now : Int) :
    Nat → Nat → RateLimiter → BatchState → List String → ResultsDict α →
    Option (RateLimiter × BatchState × ResultsDict α)
  | _, 0, rl, st, _, results => some (rl, st, results)
  | round, remaining + 1, rl, st, tickers, results =>
    if tickers.isEmpty then some (rl, st, results)
    else
      match runRound (oracle round) now rl st tickers results with
      | none => none
      | some (rl2, st2, results2) =>
        let next := st2.retry_queue
        let st3 := { st2 with retry_queue := [] }
        if next.isEmpty then some (rl2, st3, results2)
        else process_batch_go oracle now (round + 1) remaining rl2 st3 next results2

/-- Model of `BatchProcessor.process_batch(tickers, max_retries)` run on a
fresh processor. -/
def process_batch {α : Type} (oracle : Nat → String → Option α) (now : Int)
    (rl : RateLimiter) (tickers : List String) (max_retries : Nat) :
    Option (RateLimiter × BatchState × ResultsDict α) :=
  process_batch_go oracle now 0 max_retries rl ⟨[], [], []⟩ tickers []

/-- Model of `BatchProcessor.get_statistics`: the processed count, the failed
count, and the success rate guarded against division by zero. -/
def get_statistics (st : BatchState) : Nat × Nat × ℚ :=
  let p := st.processed_tickers.length
  let f := st.failed_tickers.length
  (p, f, if 0 < p + f then (p : ℚ) / ((p : ℚ) + (f : ℚ)) else 0)

/-- Claim C9: `get_statistics` computes the success rate as
`processed / (processed + failed)` when the sum is positive — in which case
the divisor is provably nonzero, so the division branch never divides by
zero — and returns exactly `0` when both counts are zero. -/
theorem statistics_success_rate (st : BatchState) :
    (0 < st.processed_tickers.length + st.failed_tickers.length →
        ((st.processed_tickers.length : ℚ) + (st.failed_tickers.length : ℚ)) ≠ 0 ∧
        (get_statistics st).2.2 =
          (st.processed_tickers.length : ℚ) /
            ((st.processed_tickers.length : ℚ) + (st.failed_tickers.length : ℚ))) ∧
    (st.processed_tickers.length = 0 → st.failed_tickers.length = 0 →
        (get_statistics st).2.2 = 0) := by
  constructor
  · intro h
    constructor
    · have : (0 : ℚ) < (st.processed_tickers.length : ℚ) + (st.failed_tickers.length : ℚ) := by
        exact_mod_cast h
      exact ne_of_gt this
    · simp [get_statistics, h]
  · intro hp hf
    simp [get_statistics, hp, hf]

/-- Witness for claim C9: one processed and no failed ticker gives rate 1;
the empty state gives rate 0. -/
theorem statistics_success_rate_check :
    (get_statistics ⟨[], ["A"], []⟩).2.2 = 1 ∧
    (get_statistics ⟨[], [], []⟩).2.2 = 0 := by
  constructor
  · have h := (statistics_success_rate ⟨[], ["A"], []⟩).1 (by decide)
    rw [h.2]
    norm_num
  · exact (statistics_success_rate ⟨[], [], []⟩).2 rfl rfl

/-- Claim C7 counterexample: with the retry queue at capacity
`MAX_QUEUE_SIZE`, the `put` performed for a failing ticker blocks (Python's
`Queue.put` default); the identifier is not dropped, and `process_ticker`
never completes — so backpressure is applied by blocking, contrary to the
claim that enqueuing never blocks. -/
theorem queue_full_blocks_cex :
    queue_put (List.replicate MAX_QUEUE_SIZE "T") MAX_QUEUE_SIZE "X" = PutResult.blocked ∧
    process_ticker ⟨30, 60, []⟩ 0 ⟨List.replicate MAX_QUEUE_SIZE "T", [], []⟩ "X"
      (none : Option Nat) = none := by
  constructor
  · simp [queue_put]
  · simp [process_ticker, queue_put]

/-- Claim C7 (amended): the retry queue is bounded at `MAX_QUEUE_SIZE`, and a
failing ticker is enqueued and counted as failed when the queue has free
space; but when the queue is full the `put` blocks the calling worker rather
than dropping the identifier, so enqueuing can block. -/
theorem queue_put_bounded (q : List String) (x : String) (rl : RateLimiter)
    (now : Int) (st : BatchState) (t : String) :
    (q.length < MAX_QUEUE_SIZE → queue_put q MAX_QUEUE_SIZE x = PutResult.enqueued (q ++ [x])) ∧
    (MAX_QUEUE_SIZE ≤ q.length → queue_put q MAX_QUEUE_SIZE x = PutResult.blocked) ∧
    (st.retry_queue.length < MAX_QUEUE_SIZE →
        process_ticker rl now st t (none : Option Nat) =
          some (rl.wait_if_needed now, none,
            { st with failed_tickers := insertSet st.failed_tickers t,
                      retry_queue := st.retry_queue ++ [t] })) ∧
    (MAX_QUEUE_SIZE ≤ st.retry_queue.length →
        process_ticker rl now st t (none : Option Nat) = none) := by
  refine ⟨?_, ?_, ?_, ?_⟩
  · intro h
    simp [queue_put, h]
  · intro h
    simp [queue_put, Nat.not_lt.mpr h]
  · intro h
    simp [process_ticker, queue_put, h]
  · intro h
    simp [process_ticker, queue_put, Nat.not_lt.mpr h]

/-- Witness for claim C7 at concrete states: a put on a queue of length 1
succeeds, a put on a full queue blocks, and `process_ticker` mirrors both. -/
theorem queue_put_bounded_check :
    queue_put ["A"] MAX_QUEUE_SIZE "X" = PutResult.enqueued ["A", "X"] ∧
    queue_put (List.replicate MAX_QUEUE_SIZE "A") MAX_QUEUE_SIZE "X" = PutResult.blocked ∧
    process_ticker ⟨30, 60, []⟩ 0 ⟨[], [], []⟩ "X" (none : Option Nat) =
      some (⟨30, 60, [0]⟩, none, ⟨["X"], [], ["X"]⟩) := by
  refine ⟨?_, ?_, ?_⟩
  · exact (queue_put_bounded ["A"] "X" ⟨30, 60, []⟩ 0 ⟨[], [], []⟩ "X").1 (by decide)
  · exact (queue_put_bounded (List.replicate MAX_QUEUE_SIZE "A") "X" ⟨30, 60, []⟩ 0
      ⟨[], [], []⟩ "X").2.1 (by simp)
  · exact (queue_put_bounded [] "X" ⟨30, 60, []⟩ 0 ⟨[], [], []⟩ "X").2.2.1 (by decide)

/-- Claim C2 counterexample: on an HTTP 401 the try body of `_fmp_get` raises
`ValueError("Invalid FMP API key")`, but the catch-all except clause of the
very same function swallows it: `_fmp_get` returns `None` normally, no
exception reaches the batch run, and `process_ticker` then records the ticker
as failed and enqueues it for retry — the run is not aborted and the
identifier is retried. -/
theorem auth_error_not_fatal_cex :
    (fmp_get_try [] 0 "profile/AAPL" "profile/AAPL|"
        (NetResult.status 401 (FmpData.arr []))).1 =
      Except.error (PyExn.valueError "Invalid FMP API key") ∧
    fmp_get [] 0 "profile/AAPL" "" (NetResult.status 401 (FmpData.arr [])) =
      (none, [], 1) ∧
    process_ticker ⟨30, 60, []⟩ 0 ⟨[], [], []⟩ "AAPL" (none : Option FmpData) =
      some (⟨30, 60, [0]⟩, none, ⟨["AAPL"], [], ["AAPL"]⟩) := by
  refine ⟨rfl, by decide, by decide⟩

/-- Claim C2 (amended): for every state with no fresh cache entry for the
request, an HTTP 401 makes `_fmp_get` return `None` — the internally raised
`ValueError` is converted by the catch-all except clause — and the failing
identifier is recorded in `failed_tickers` and enqueued for retry whenever
the retry queue has free space; the batch run is never aborted by an
authentication failure. -/
theorem auth_error_not_fatal (c : Cache) (now : Int) (endpoint params : String)
    (body : FmpData) (rl : RateLimiter) (st : BatchState) (t : String)
    (hmiss : cache_get c (endpoint ++ "|" ++ params) now = none)
    (hq : st.retry_queue.length < MAX_QUEUE_SIZE) :
    fmp_get c now endpoint params (NetResult.status 401 body) = (none, c, 1) ∧
    process_ticker rl now st t (none : Option FmpData) =
      some (rl.wait_if_needed now, none,
        { st with failed_tickers := insertSet st.failed_tickers t,
                  retry_queue := st.retry_queue ++ [t] }) := by
  constructor
  · simp [fmp_get, hmiss, fmp_get_try]
  · simp [process_ticker, queue_put, hq]

/-- Witness for claim C2 at a concrete state: a 401 on an empty cache returns
`None` with one admission, and the failing ticker lands in the failed set and
the retry queue. -/
theorem auth_error_not_fatal_check :
    fmp_get [] 0 "profile/AAPL" "" (NetResult.status 401 (FmpData.obj [])) =
      (none, [], 1) ∧
    process_ticker ⟨30, 60, []⟩ 0 ⟨[], [], []⟩ "XOM" (none : Option FmpData) =
      some (⟨30, 60, [0]⟩, none, ⟨["XOM"], [], ["XOM"]⟩) := by
  have h := auth_error_not_fatal [] 0 "profile/AAPL" "" (FmpData.obj []) ⟨30, 60, []⟩
    ⟨[], [], []⟩ "XOM" (by decide) (by decide)
  exact ⟨h.1, h.2⟩

/-- A concrete profile document that passes the validator, used in the cache
round-trip scenarios. -/
def profileDoc : FmpData :=
  .arr [[("symbol", "AAPL"), ("price", "1"), ("mktCap", "2")]]

/-- Claim C3 counterexample: after a first successful fetch is cached, the
second call is cache-served — it returns the identical record and performs
zero `handle_rate_limit` admissions inside `_fmp_get` — yet processing the
identifier again through `BatchProcessor.process_ticker` still records one
`RateLimiter` admission, because `wait_if_needed` is invoked unconditionally
before the fetch; so the second call does not record zero rate-limiter
admissions. -/
theorem cache_hit_admissions_cex :
    fmp_get [] 0 "profile/AAPL" "" (NetResult.status 200 profileDoc) =
      (some profileDoc, [("profile/AAPL|", ⟨profileDoc, 0⟩)], 1) ∧
    fmp_get [("profile/AAPL|", ⟨profileDoc, 0⟩)] 5 "profile/AAPL" ""
        NetResult.transportError =
      (some profileDoc, [("profile/AAPL|", ⟨profileDoc, 0⟩)], 0) ∧
    process_ticker ⟨30, 60, []⟩ 5 ⟨[], [], []⟩ "AAPL" (some profileDoc) =
      some (⟨30, 60, [5]⟩, some ("AAPL", profileDoc), ⟨[], ["AAPL"], []⟩) ∧
    [(5 : Int)].length ≠ 0 := by
  refine ⟨by decide, by decide, by decide, by decide⟩

/-- Claim C3 (amended): when a first fetch succeeds and validates, a second
fetch of the same endpoint before expiry is cache-served: it returns the
identical record and performs zero `handle_rate_limit` admissions inside
`_fmp_get`; however `BatchProcessor.process_ticker` calls
`RateLimiter.wait_if_needed` unconditionally before fetching, so one
rate-limiter admission timestamp is still recorded for the cache-served
call. -/
theorem cache_hit_identity (c : Cache) (now1 now2 : Int)
    (endpoint params ticker : String) (body : FmpData) (net2 : NetResult)
    (rl : RateLimiter) (st : BatchState)
    (hmiss : cache_get c (endpoint ++ "|" ++ params) now1 = none)
    (hvalid : validate_response_data body endpoint = true)
    (hfresh : now2 - now1 < CACHE_EXPIRY) :
    fmp_get c now1 endpoint params (NetResult.status 200 body) =
      (some body, cache_put c (endpoint ++ "|" ++ params) body now1, 1) ∧
    fmp_get (cache_put c (endpoint ++ "|" ++ params) body now1) now2 endpoint params net2 =
      (some body, cache_put c (endpoint ++ "|" ++ params) body now1, 0) ∧
    process_ticker rl now2 st ticker (some body) =
      some (rl.wait_if_needed now2, some (ticker, body),
        { st with processed_tickers := insertSet st.processed_tickers ticker }) ∧
    (rl.wait_if_needed now2).requests.getLast? = some now2 := by
  refine ⟨?_, ?_, ?_, ?_⟩
  · simp [fmp_get, hmiss, fmp_get_try, hvalid]
  · simp [fmp_get, cache_get, cache_put, cacheLookup_cacheInsert_self, hfresh]
  · simp [process_ticker]
  · dsimp only [RateLimiter.wait_if_needed]
    split <;> exact List.getLast?_concat _

/-- Witness for claim C3 at a concrete round trip: the second fetch at time 5
is cache-served with zero admissions, and the unconditional `wait_if_needed`
at time 5 records the admission instant 5. -/
theorem cache_hit_identity_check :
    fmp_get (cache_put [] ("profile/AAPL" ++ "|" ++ "") profileDoc 0) 5 "profile/AAPL" ""
        NetResult.transportError =
      (some profileDoc, cache_put [] ("profile/AAPL" ++ "|" ++ "") profileDoc 0, 0) ∧
    (RateLimiter.wait_if_needed ⟨30, 60, []⟩ 5).requests.getLast? = some 5 := by
  have h := cache_hit_identity [] 0 5 "profile/AAPL" "" "AAPL" profileDoc
    NetResult.transportError ⟨30, 60, []⟩ ⟨[], [], []⟩ (by decide) (by decide) (by decide)
  exact ⟨h.2.1, h.2.2.2⟩

/-- Fetch oracle of the end-to-end scenario: A and C succeed on the first
attempt, B fails transiently on round 0 and succeeds from retry round 1 on;
the distinct numeric tokens stand for the distinct provider responses. -/
def scenarioOracle (round : Nat) (t : String) : Option Nat :=
  if t = "A" then some 10
  else if t = "C" then some 30
  else if t = "B" then (if round = 0 then none else some 21)
  else none

/-- Claim C5 counterexample: in the A, B, C scenario the run finishes with
`failedCount = 1`, not `0` as claimed — B is added to `failed_tickers` on its
first failure, and its success on retry round 1 never removes it. -/
theorem scenario_failed_count_cex :
    (process_batch scenarioOracle 0 ⟨30, 60, []⟩ ["A", "B", "C"] 3).map
        (fun x => (get_statistics x.2.1).2.1) = some 1 ∧
    (1 : Nat) ≠ 0 := by
  refine ⟨by decide, by decide⟩

/-- Claim C5 (amended): in the A, B, C scenario the result mapping contains
all three identifiers with B mapped to the retry-round response,
`processedCount = 3`, but `failedCount = 1` (B remains in `failed_tickers`
because success on retry never removes an identifier from the failed set) and
`successRate = 3/4`. -/
theorem scenario_run :
    (process_batch scenarioOracle 0 ⟨30, 60, []⟩ ["A", "B", "C"] 3).map
        (fun x => (x.2.1, x.2.2)) =
      some (⟨[], ["A", "C", "B"], ["B"]⟩, [("B", 21), ("C", 30), ("A", 10)]) ∧
    (process_batch scenarioOracle 0 ⟨30, 60, []⟩ ["A", "B", "C"] 3).map
        (fun x => (dictLookup x.2.2 "A", dictLookup x.2.2 "B", dictLookup x.2.2 "C")) =
      some (some 10, some 21, some 30) ∧
    (process_batch scenarioOracle 0 ⟨30, 60, []⟩ ["A", "B", "C"] 3).map
        (fun x => ((get_statistics x.2.1).1, (get_statistics x.2.1).2.1)) =
      some (3, 1) ∧
    (get_statistics ⟨[], ["A", "C", "B"], ["B"]⟩).2.2 = 3 / 4 := by
  refine ⟨by decide, by decide, by decide, ?_⟩
  simp [get_statistics]
  norm_num

/-- Evaluation of the Python expression `X[0]` for an optional JSON document:
indexing `None` raises `TypeError`, an empty list raises `IndexError`, and an
object raises `KeyError`; a non-empty list yields its first record. -/
def pyIndex0 : Option FmpData → Except Unit JsonRec
  | some (FmpData.arr (r :: _)) => Except.ok r
  | _ => Except.error ()

/-- Python dict `.get(f)`, returning `None` when the key is absent. -/
def getField (r : JsonRec) (f : String) : Option String :=
  (r.find? (fun p => p.1 = f)).map (fun p => p.2)

/-- Evaluation of the guarded Python expression `X[0].get(f) if X else None`:
a falsy `X` (absent or empty) yields `None`; a truthy `X` is indexed and can
still raise. -/
def guardedGet (x : Option FmpData) (f : String) : Except Unit (Option String) :=
  match x with
  | none => Except.ok none
  | some d =>
    if d.truthy then (pyIndex0 (some d)).map (fun r => getField r f)
    else Except.ok none

/-- The flat record `fetch_stock_data` builds, with every mapped field and the
`raw_data` sub-dictionary. -/
structure StockRecord where
  pe_ratio : Option String
  forward_pe : Option String
  price_to_book : Option String
  price_to_sales : Option String
  market_cap : Option String
  ev_ebitda : Option String
  roe : Option String
  roa : Option String
  net_margin : Option String
  operating_margin : Option String
  gross_margin : Option String
  ebitda_margin : Option String
  debt_to_equity : Option String
  total_debt : Option String
  total_cash : Option String
  total_equity : Option String
  current_ratio : Option String
  quick_ratio : Option String
  interest_coverage : Option String
  free_cash_flow : Option String
  operating_cash_flow : Option String
  fcf_yield : Option String
  dividend_yield : Option String
  payout_ratio : Option String
  revenue_growth_ttm : Option String
  net_income_growth_ttm : Option String
  eps_growth_ttm : Option String
  fcf_growth_ttm : Option String
  dividend_growth_ttm : Option String
  book_value_growth_ttm : Option String
  roe_growth_ttm : Option String
  roa_growth_ttm : Option String
  analyst_rating : Option String
  price_target : Option String
  price_target_high : Option String
  price_target_low : Option String
  price_target_mean : Option String
  price_target_median : Option String
  analyst_recommendation : Option String
  rating_score : Option String
  insider_ownership : Option String
  institutional_ownership : Option String
  short_ratio : Option String
  rsi : Option String
  beta : Option String
  raw_profile : Option FmpData
  raw_balance_sheet : Option FmpData
  raw_income_statement : Option FmpData
  raw_cash_flow : Option FmpData
  raw_key_metrics : Option FmpData
  raw_ratios : Option FmpData
  raw_sentiment : Option FmpData
  raw_growth : Option FmpData
deriving DecidableEq

/-- Evaluation of the record literal inside `fetch_stock_data`'s try block:
`key_metrics[0]` and `ratios[0]` are indexed without a guard, while the
balance-sheet, cash-flow, growth and sentiment accesses are each guarded by
`if X else None`; `profile_data` and `income_stmt` are only stored into
`raw_data` and never indexed.  Any raise is recorded in the `Except` layer. -/
def fetch_stock_data_build (profile_data balance_sheet income_stmt cash_flow
    key_metrics ratios sentiment growth : Option FmpData) :
    Except Unit StockRecord := do
  let km ← pyIndex0 key_metrics
  let rt ← pyIndex0 ratios
  let td ← guardedGet balance_sheet "totalDebt"
  let tc ← guardedGet balance_sheet "cashAndCashEquivalents"
  let te ← guardedGet balance_sheet "totalStockholdersEquity"
  let fcf ← guardedGet cash_flow "freeCashFlow"
  let ocf ← guardedGet cash_flow "operatingCashFlow"
  let rg ← guardedGet growth "revenueGrowth"
  let nig ← guardedGet growth "netIncomeGrowth"
  let eg ← guardedGet growth "epsGrowth"
  let fcfg ← guardedGet growth "freeCashFlowGrowth"
  let dg ← guardedGet growth "dividendGrowth"
  let bvg ← guardedGet growth "bookValueGrowth"
  let roeg ← guardedGet growth "roeGrowth"
  let roag ← guardedGet growth "roaGrowth"
  let ar ← guardedGet sentiment "rating"
  let pt ← guardedGet sentiment "targetPrice"
  let pth ← guardedGet sentiment "targetHighPrice"
  let ptl ← guardedGet sentiment "targetLowPrice"
  let ptm ← guardedGet sentiment "targetMeanPrice"
  let ptmed ← guardedGet sentiment "targetMedianPrice"
  let arec ← guardedGet sentiment "recommendation"
  let rs ← guardedGet sentiment "ratingScore"
  let io2 ← guardedGet sentiment "insiderOwnership"
  let inst ← guardedGet sentiment "institutionalOwnership"
  let sr ← guardedGet sentiment "shortRatio"
  let rsi0 ← guardedGet sentiment "rsi"
  pure {
    pe_ratio := getField km "peRatioTTM"
    forward_pe := getField km "forwardPE"
    price_to_book := getField km "pbRatioTTM"
    price_to_sales := getField km "priceToSalesRatioTTM"
    market_cap := getField km "marketCapTTM"
    ev_ebitda := getField km "enterpriseValueOverEBITDATTM"
    roe := getField rt "returnOnEquityTTM"
    roa := getField rt "returnOnAssetsTTM"
    net_margin := getField rt "netProfitMarginTTM"
    operating_margin := getField rt "operatingProfitMarginTTM"
    gross_margin := getField rt "grossProfitMarginTTM"
    ebitda_margin := getField km "ebitdaMarginTTM"
    debt_to_equity := getField rt "debtEquityRatioTTM"
    total_debt := td
    total_cash := tc
    total_equity := te
    current_ratio := getField rt "currentRatioTTM"
    quick_ratio := getField rt "quickRatioTTM"
    interest_coverage := getField rt "interestCoverageTTM"
    free_cash_flow := fcf
    operating_cash_flow := ocf
    fcf_yield := getField km "freeCashFlowYieldTTM"
    dividend_yield := getField rt "dividendYielTTM"
    payout_ratio := getField rt "payoutRatioTTM"
    revenue_growth_ttm := rg
    net_income_growth_ttm := nig
    eps_growth_ttm := eg
    fcf_growth_ttm := fcfg
    dividend_growth_ttm := dg
    book_value_growth_ttm := bvg
    roe_growth_ttm := roeg
    roa_growth_ttm := roag
    analyst_rating := ar
    price_target := pt
    price_target_high := pth
    price_target_low := ptl
    price_target_mean := ptm
    price_target_median := ptmed
    analyst_recommendation := arec
    rating_score := rs
    insider_ownership := io2
    institutional_ownership := inst
    short_ratio := sr
    rsi := rsi0
    beta := getField km "beta"
    raw_profile := profile_data
    raw_balance_sheet := balance_sheet
    raw_income_statement := income_stmt
    raw_cash_flow := cash_flow
    raw_key_metrics := key_metrics
    raw_ratios := ratios
    raw_sentiment := sentiment
    raw_growth := growth }

/-- Model of `fetch_stock_data(ticker)` given the eight endpoint results: the
catch-all `except Exception` converts any exception raised while building the
record into a `None` result for the whole ticker. -/
def fetch_stock_data (profile_data balance_sheet income_stmt cash_flow
    key_metrics ratios sentiment growth : Option FmpData) : Option StockRecord :=
  match fetch_stock_data_build profile_data balance_sheet income_stmt cash_flow
      key_metrics ratios sentiment growth with
  | Except.ok r => some r
  | Except.error _ => none

/-- Claim C10: when the key-metrics-ttm or the ratios-ttm fetch returns
`None`, `fetch_stock_data` returns `None` for the whole ticker — the
unguarded `key_metrics[0]` / `ratios[0]` indexings raise inside the catch-all
— no matter what the other six endpoints returned; whereas when both are
present non-empty lists, the result is a record even if every guarded
endpoint is absent. -/
theorem fetch_requires_metrics_and_ratios (profile_data balance_sheet income_stmt
    cash_flow key_metrics ratios sentiment growth : Option FmpData)
    (h : key_metrics = none ∨ ratios = none) :
    fetch_stock_data profile_data balance_sheet income_stmt cash_flow
      key_metrics ratios sentiment growth = none ∧
    (∀ km rt p b i c s g : JsonRec,
        fetch_stock_data (some (FmpData.arr [p])) (some (FmpData.arr [b]))
          (some (FmpData.arr [i])) (some (FmpData.arr [c])) (some (FmpData.arr [km]))
          (some (FmpData.arr [rt])) (some (FmpData.arr [s])) (some (FmpData.arr [g]))
          ≠ none) := by
  constructor
  · rcases h with h | h
    · subst h
      rfl
    · subst h
      cases key_metrics with
      | none => rfl
      | some d =>
        cases d with
        | obj fs => rfl
        | arr rs =>
          cases rs with
          | nil => rfl
          | cons r rest => rfl
  · intro km rt p b i c s g
    exact fun hcon => Option.noConfusion hcon

/-- Witness for claim C10: with every other endpoint successful but
key-metrics-ttm `None`, the whole ticker comes back `None`. -/
theorem fetch_requires_metrics_and_ratios_check :
    fetch_stock_data (some profileDoc) (some profileDoc) (some profileDoc)
      (some profileDoc) none (some profileDoc) (some profileDoc) (some profileDoc)
      = none := by
  exact (fetch_requires_metrics_and_ratios (some profileDoc) (some profileDoc)
    (some profileDoc) (some profileDoc) none (some profileDoc) (some profileDoc)
    (some profileDoc) (Or.inl rfl)).1

theorem foldl_insertSet_of_disjoint (l : List String) :
    ∀ s : List String, (∀ x ∈ l, x ∉ s) → l.Nodup → List.foldl insertSet s l = s ++ l := by
  induction l with
  | nil => intro s _ _; simp
  | cons a t ih =>
    intro s hdisj hnd
    have ha : a ∉ s := hdisj a (List.mem_cons_self a t)
    have hstep : List.foldl insertSet s (a :: t) = List.foldl insertSet (s ++ [a]) t := by
      simp [List.foldl_cons, insertSet, ha]
    rw [hstep, ih (s ++ [a])]
    · simp
    · intro x hx
      simp only [List.mem_append, List.mem_singleton]
      rintro (hxs | hxa)
      · exact hdisj x (List.mem_cons_of_mem a hx) hxs
      · subst hxa
        exact (List.nodup_cons.mp hnd).1 hx
    · exact (List.nodup_cons.mp hnd).2

theorem foldl_insertSet_of_subset (l : List String) :
    ∀ s : List String, (∀ x ∈ l, x ∈ s) → List.foldl insertSet s l = s := by
  induction l with
  | nil => intro s _; rfl
  | cons a t ih =>
    intro s hsub
    have ha : a ∈ s := hsub a (List.mem_cons_self a t)
    have hstep : List.foldl insertSet s (a :: t) = List.foldl insertSet s t := by
      simp [List.foldl_cons, insertSet, ha]
    rw [hstep, ih s (fun x hx => hsub x (List.mem_cons_of_mem a hx))]

theorem runRound_fail (now : Int) (tickers : List String) :
    ∀ (rl : RateLimiter) (st : BatchState) (results : ResultsDict Nat),
      st.retry_queue.length + tickers.length ≤ MAX_QUEUE_SIZE →
      ∃ rl2, runRound (fun _ => (none : Option Nat)) now rl st tickers results =
        some (rl2,
          ⟨st.retry_queue ++ tickers, st.processed_tickers,
            List.foldl insertSet st.failed_tickers tickers⟩, results) := by
  induction tickers with
  | nil =>
    intro rl st results _
    exact ⟨rl, by simp [runRound]⟩
  | cons t rest ih =>
    intro rl st results hcap
    have hq : st.retry_queue.length < MAX_QUEUE_SIZE := by
      simp only [List.length_cons] at hcap
      omega
    have hput : queue_put st.retry_queue MAX_QUEUE_SIZE t =
        PutResult.enqueued (st.retry_queue ++ [t]) := by
      simp [queue_put, hq]
    have hstep : runRound (fun _ => (none : Option Nat)) now rl st (t :: rest) results =
        runRound (fun _ => (none : Option Nat)) now (rl.wait_if_needed now)
          ⟨st.retry_queue ++ [t], st.processed_tickers,
            insertSet st.failed_tickers t⟩ rest results := by
      simp [runRound, process_ticker, hput]
    rw [hstep]
    have hcap2 : (st.retry_queue ++ [t]).length + rest.length ≤ MAX_QUEUE_SIZE := by
      simp only [List.length_append, List.length_cons, List.length_nil,
        List.length_cons] at hcap ⊢
      omega
    obtain ⟨rl2, hrr⟩ := ih (rl.wait_if_needed now)
      ⟨st.retry_queue ++ [t], st.processed_tickers, insertSet st.failed_tickers t⟩
      results hcap2
    refine ⟨rl2, ?_⟩
    rw [hrr]
    simp [List.foldl_cons]

theorem process_batch_go_fail (now : Int) (remaining : Nat) :
    ∀ (round : Nat) (rl : RateLimiter) (st : BatchState) (tickers : List String)
      (results : ResultsDict Nat),
      tickers ≠ [] → tickers.length ≤ MAX_QUEUE_SIZE → st.retry_queue = [] →
      (∀ x ∈ tickers, x ∈ st.failed_tickers) →
      ∃ rl2, process_batch_go (fun _ _ => (none : Option Nat)) now round remaining rl st
          tickers results =
        some (rl2, ⟨[], st.processed_tickers, st.failed_tickers⟩, results) := by
  induction remaining with
  | zero =>
    intro round rl st tickers results _ _ hqnil _
    refine ⟨rl, ?_⟩
    obtain ⟨q, p, f⟩ := st
    simp only at hqnil
    subst hqnil
    rfl
  | succ rem ih =>
    intro round rl st tickers results hne hlen hqnil hsub
    have hcap : st.retry_queue.length + tickers.length ≤ MAX_QUEUE_SIZE := by
      rw [hqnil]; simpa using hlen
    obtain ⟨rl2, hrr⟩ := runRound_fail now tickers rl st results hcap
    have hfold : List.foldl insertSet st.failed_tickers tickers = st.failed_tickers :=
      foldl_insertSet_of_subset tickers st.failed_tickers hsub
    have hemp : tickers.isEmpty = false := by
      cases tickers with
      | nil => exact absurd rfl hne
      | cons a t => rfl
    have hstep : process_batch_go (fun _ _ => (none : Option Nat)) now round (rem + 1)
        rl st tickers results =
        process_batch_go (fun _ _ => (none : Option Nat)) now (round + 1) rem rl2
          ⟨[], st.processed_tickers, st.failed_tickers⟩ tickers results := by
      simp only [process_batch_go, hemp, Bool.false_eq_true, if_false, hrr,
        hqnil, List.nil_append, hfold]
    rw [hstep]
    exact ih (round + 1) rl2 ⟨[], st.processed_tickers, st.failed_tickers⟩ tickers
      results hne hlen rfl hsub

/-- Claim C6 counterexample: for the non-empty input list `["A", "A"]` whose
fetches always fail, the run terminates but `failedCount` is 1 — the failed
set collapses duplicate identifiers — while the input list has size 2, so
`failedCount` does not equal the size of the input list. -/
theorem retry_all_fail_duplicates_cex :
    (process_batch (fun _ _ => (none : Option Nat)) 0 ⟨30, 60, []⟩ ["A", "A"] 3).map
        (fun x => (get_statistics x.2.1).2.1) = some 1 ∧
    ["A", "A"].length = 2 ∧ (1 : Nat) ≠ 2 := by
  refine ⟨by decide, by decide, by decide⟩

/-- Claim C6 (amended): for every non-empty list of distinct identifiers, of
length at most the retry-queue capacity `MAX_QUEUE_SIZE`, whose fetches
always fail, the run terminates (the loop executes at most `max_retries`
rounds by construction), the result mapping is empty, `failedCount` equals
the input size, `processedCount` is 0 and `successRate` is exactly 0. -/
theorem retry_termination (tickers : List String) (hnd : tickers.Nodup)
    (hlen : tickers.length ≤ MAX_QUEUE_SIZE) (hne : tickers ≠ []) :
    ∃ rl2, process_batch (fun _ _ => (none : Option Nat)) 0 ⟨30, 60, []⟩ tickers 3 =
        some (rl2, ⟨[], [], tickers⟩, []) ∧
      (get_statistics ⟨[], [], tickers⟩).1 = 0 ∧
      (get_statistics ⟨[], [], tickers⟩).2.1 = tickers.length ∧
      (get_statistics ⟨[], [], tickers⟩).2.2 = 0 := by
  have hcap : ([] : List String).length + tickers.length ≤ MAX_QUEUE_SIZE := by
    simpa using hlen
  obtain ⟨rl2, hrr⟩ := runRound_fail 0 tickers ⟨30, 60, []⟩ ⟨[], [], []⟩ [] hcap
  have hfold : List.foldl insertSet [] tickers = tickers := by
    have := foldl_insertSet_of_disjoint tickers [] (by simp) hnd
    simpa using this
  have hemp : tickers.isEmpty = false := by
    cases tickers with
    | nil => exact absurd rfl hne
    | cons a t => rfl
  have hstep : process_batch (fun _ _ => (none : Option Nat)) 0 ⟨30, 60, []⟩ tickers 3 =
      process_batch_go (fun _ _ => (none : Option Nat)) 0 1 2 rl2
        ⟨[], [], tickers⟩ tickers [] := by
    show process_batch_go (fun _ _ => (none : Option Nat)) 0 0 3 ⟨30, 60, []⟩
        ⟨[], [], []⟩ tickers [] = _
    simp only [process_batch_go, hemp, Bool.false_eq_true, if_false, hrr,
      List.nil_append, hfold]
  obtain ⟨rl3, hgo⟩ := process_batch_go_fail 0 2 1 rl2 ⟨[], [], tickers⟩ tickers []
    hne hlen rfl (fun x hx => hx)
  have hlenpos : 0 < tickers.length := List.length_pos.mpr hne
  refine ⟨rl3, ?_, ?_, ?_, ?_⟩
  · rw [hstep]; exact hgo
  · simp [get_statistics]
  · simp [get_statistics]
  · simp only [get_statistics, List.length_nil]
    rw [if_pos (by omega)]
    simp

/-- Witness for claim C6 with the concrete distinct input `["A", "B"]`: the
always-failing run terminates with an empty mapping, two failed tickers and
success rate 0. -/
theorem retry_termination_check :
    ∃ rl2, process_batch (fun _ _ => (none : Option Nat)) 0 ⟨30, 60, []⟩ ["A", "B"] 3 =
        some (rl2, ⟨[], [], ["A", "B"]⟩, []) ∧
      (get_statistics ⟨[], [], ["A", "B"]⟩).1 = 0 ∧
      (get_statistics ⟨[], [], ["A", "B"]⟩).2.1 = ["A", "B"].length ∧
      (get_statistics ⟨[], [], ["A", "B"]⟩).2.2 = 0 :=
  retry_termination ["A", "B"] (by decide) (by decide) (by decide)

end StockService
